import Mathlib

/-!
Verification development for the fiatjaf/graphql request-execution pipeline
(`graphql.go`: `Do`, `DoAsync`, `do`) and the websocket transport handler
(`handler/websocket.go`).  The Go source is shallowly embedded: collaborator
components that the pipeline only calls (parser, validator, executor,
extension hooks) appear as record fields holding their observable outputs,
while every branch of the orchestrating code itself is translated
control-flow-faithfully.
-/

set_option autoImplicit false

namespace GraphQL

/-- Type `gqlerrors.FormattedError`: only the message is relevant to the claims. -/
structure FormattedError where
  message : String
  deriving DecidableEq, Repr

/-- Type `graphql.Result`: data payload (opaque, optional) plus an ordered error list. -/
structure Result where
  data : Option String := none
  errors : List FormattedError := []
  deriving DecidableEq, Repr

/-- A top-level definition of a parsed document (`ast.Document.Definitions`).
`operationDefinition` carries the `Operation` string field of
`ast.OperationDefinition` ("query", "mutation" or "subscription");
`fragmentDefinition` stands for any definition node that is not an
`*ast.OperationDefinition` (e.g. `ast.FragmentDefinition`). -/
inductive Definition where
  | operationDefinition (operation : String)
  | fragmentDefinition
  deriving DecidableEq, Repr

/-- Type `ast.Document`: the orchestrator only inspects `Definitions`. -/
structure Document where
  definitions : List Definition
  deriving DecidableEq, Repr

/-- Type `graphql.ValidationResult` (`IsValid`, `Errors`). -/
structure ValidationResult where
  isValid : Bool
  errors : List FormattedError
  deriving DecidableEq, Repr

/-- Observable behaviour of a Go `chan *Result` as produced by the pipeline:
the list of values sent on it over its lifetime, and whether `close` is ever
called on it. -/
structure ChannelSpec where
  sent : List Result
  closed : Bool
  deriving DecidableEq, Repr

/-- The `singleEventChannel` pattern of `do`: a channel on which exactly one
result is sent by a goroutine; the source never calls `close` on it. -/
def singleEventChannel (r : Result) : ChannelSpec :=
  { sent := [r], closed := false }

/-- Helper `wrapErr` inside `do`: wraps a formatted-error list as a single failed
`Result` sent on a fresh (never-closed) channel. -/
def wrapErr (gqlerr : List FormattedError) : ChannelSpec :=
  singleEventChannel { data := none, errors := gqlerr }

/-- Which way a call of `do` ends: a channel tagged with the branch that
produced it (`failed` = one of the `wrapErr` early returns, `single` =
the `Execute` goroutine branch, `streaming` = `ExecuteSubscription`), or a
runtime panic of the unchecked type assertion
`AST.Definitions[0].(*ast.OperationDefinition)`. -/
inductive DoOutcome where
  | failed (ch : ChannelSpec)
  | single (ch : ChannelSpec)
  | streaming (ch : ChannelSpec)
  | panicked
  deriving DecidableEq, Repr

/-- The channel a `do` call hands back, when it returns at all. -/
def DoOutcome.channel : DoOutcome → Option ChannelSpec
  | .failed ch => some ch
  | .single ch => some ch
  | .streaming ch => some ch
  | .panicked => none

/-- Holds exactly when the streaming strategy `ExecuteSubscription` was the
branch taken. -/
def DoOutcome.isStreaming : DoOutcome → Bool
  | .streaming _ => true
  | _ => false

/-- One run of `do`, instrumented with how many times the finish functions
returned by `handleExtensionsParseDidStart` / `handleExtensionsValidationDidStart`
were invoked before the call ended. -/
structure DoRun where
  outcome : DoOutcome
  parseFinishCalls : Nat
  validationFinishCalls : Nat
  deriving DecidableEq, Repr

/-- The collaborators of one `do` invocation, each reduced to its observable
input/output behaviour for the fixed `Params` of that invocation:
* `initErrs`, `parseStartErrs`, `validationStartErrs` — the error lists
  returned by `handleExtensionsInits`, `handleExtensionsParseDidStart`,
  `handleExtensionsValidationDidStart`;
* `parseFinish b` — the errors returned by the parse finish function when
  invoked; `b` records whether the parser error it receives is non-nil;
* `parse` — the outcome of `parser.Parse`, with a parse failure already
  rendered through `gqlerrors.FormatErrors`;
* `validate` — `ValidateDocument` on the parsed document;
* `validationFinish` — the validation finish function, applied to
  `validationResult.Errors`;
* `executeResult` — the single `Result` of `Execute(params)`;
* `executeSubscriptionChan` — the channel `ExecuteSubscription(params)`
  returns (its behaviour is outside this file's sources, hence opaque). -/
structure Collab where
  initErrs : List FormattedError
  parseStartErrs : List FormattedError
  parseFinish : Bool → List FormattedError
  parse : Except (List FormattedError) Document
  validationStartErrs : List FormattedError
  validate : Document → ValidationResult
  validationFinish : List FormattedError → List FormattedError
  executeResult : Result
  executeSubscriptionChan : ChannelSpec

/-- The strategy dispatch at the end of `do`:
`if !skipSubscriptions && len(AST.Definitions) > 0 &&
    AST.Definitions[0].(*ast.OperationDefinition).Operation == "subscription"`.
The `&&` short-circuits, so the unchecked type assertion is only evaluated
when `skipSubscriptions` is false and the definition list is non-empty; it
panics when the first definition is not an operation definition. -/
def dispatch (c : Collab) (skipSubscriptions : Bool) (AST : Document) : DoOutcome :=
  if skipSubscriptions = false ∧ AST.definitions ≠ [] then
    match AST.definitions with
    | .operationDefinition op :: _ =>
        if op = "subscription" then
          .streaming c.executeSubscriptionChan
        else
          .single (singleEventChannel c.executeResult)
    | .fragmentDefinition :: _ => .panicked
    | [] => .single (singleEventChannel c.executeResult)
  else
    .single (singleEventChannel c.executeResult)

/-- Function `func do(p Params, skipSubscriptions bool) chan *Result`, instrumented with
the finish-function call counts.  Each early `return wrapErr(...)` of the
source is one branch here, in source order. -/
def do_ (c : Collab) (skipSubscriptions : Bool) : DoRun :=
  -- run init on the extensions
  if c.initErrs ≠ [] then
    ⟨.failed (wrapErr c.initErrs), 0, 0⟩
  else if c.parseStartErrs ≠ [] then
    ⟨.failed (wrapErr c.parseStartErrs), 0, 0⟩
  else
    match c.parse with
    | .error parseErrs =>
        -- run parseFinishFuncs, then merge extension errors with the parser error
        ⟨.failed (wrapErr (c.parseFinish true ++ parseErrs)), 1, 0⟩
    | .ok AST =>
        if c.parseFinish false ≠ [] then
          ⟨.failed (wrapErr (c.parseFinish false)), 1, 0⟩
        else if c.validationStartErrs ≠ [] then
          ⟨.failed (wrapErr c.validationStartErrs), 1, 0⟩
        else
          let validationResult := c.validate AST
          if validationResult.isValid = false then
            -- merge validation finish errors with the validation errors
            ⟨.failed (wrapErr (c.validationFinish validationResult.errors ++
                validationResult.errors)), 1, 1⟩
          else if c.validationFinish validationResult.errors ≠ [] then
            ⟨.failed (wrapErr (c.validationFinish validationResult.errors)), 1, 1⟩
          else
            ⟨dispatch c skipSubscriptions AST, 1, 1⟩

/-- Function `func DoAsync(p Params) chan *Result { return do(p, false) }`. -/
def DoAsync (c : Collab) : DoRun :=
  do_ c false

/-- Function `func Do(p Params) *Result`: receive once from `do(p, true)`, i.e. the first
value received on the channel, when `do` returns one. -/
def Do (c : Collab) : Option Result :=
  match (do_ c true).outcome.channel with
  | some ch => ch.sent.head?
  | none => none

end GraphQL

namespace Handler

open GraphQL

/-! Constants of `handler/websocket.go`, in nanoseconds (Go `time.Duration`). -/

/-- Go `time.Second` as a `time.Duration` count of nanoseconds. -/
def timeSecond : Nat := 1000000000

/-- Time allowed to write a message to the peer. -/
def writeWait : Nat := 10 * timeSecond

/-- Time allowed to read the next pong message from the peer. -/
def pongWait : Nat := 60 * timeSecond

/-- Send pings to peer with this period. Must be less than pongWait. -/
def pingPeriod : Nat := pongWait / 2

/-- Maximum message size allowed from peer. -/
def maxMessageSize : Nat := 512000

/-! Dispatch of a `subscribe`/`start` frame between `graphql.DoAsync` and
`graphql.Do`. -/

/-- Go `strings.TrimLeft` with cutset of a single space: removes leading U+0020 space characters (and
only those). -/
def trimLeftSpaces : List Char → List Char
  | [] => []
  | ch :: rest => if ch = ' ' then trimLeftSpaces rest else ch :: rest

/-- Go prefix test of the `strings` package. -/
def startsWithChars : List Char → List Char → Bool
  | _, [] => true
  | [], _ :: _ => false
  | ch :: s, p :: ps => ch = p && startsWithChars s ps

/-- The characters of the keyword `subscription`. -/
def subscriptionKeyword : List Char :=
  ['s', 'u', 'b', 's', 'c', 'r', 'i', 'p', 't', 'i', 'o', 'n']

/-- The branch condition of the `subscribe`/`start` case:
`strings.HasPrefix(strings.TrimLeft(payload.Query, " "), "subscription")`.
`true` routes the request through `graphql.DoAsync`, `false` through
`graphql.Do`. -/
def usesDoAsync (query : List Char) : Bool :=
  startsWithChars (trimLeftSpaces query) subscriptionKeyword

/-- A GraphQL ignored character before the first token: white space (space,
tab), line terminators (newline, carriage return) and commas. -/
def ignoredChar (ch : Char) : Bool :=
  ch = ' ' || ch = '\t' || ch = '\n' || ch = '\r' || ch = ','

/-- Modelled from the spec: the parser collaborator (`language/parser`, not
among these sources) decides each operation's kind; per §3 the orchestrator
inspects "the kind of its first top-level definition".  A request text is a
subscription document exactly when its first meaningful token — the first
token after the GraphQL ignored characters — is the operation keyword
`subscription`. -/
def firstOperationIsSubscription (query : List Char) : Bool :=
  startsWithChars (query.dropWhile ignoredChar) subscriptionKeyword

/-! Per-connection session registry (`ws.subscriptionCancellers`, a
`syncmap.MapOf[string, context.CancelFunc]`).  Cancel functions are
identified by opaque handle tokens; the registry is an association list with
at most one entry per key, `Store` overwriting in place. -/

/-- Map operation `Store`: insert or overwrite the entry for a key. -/
def store : List (String × Nat) → String → Nat → List (String × Nat)
  | [], k, v => [(k, v)]
  | (k0, v0) :: rest, k, v =>
      if k0 = k then (k, v) :: rest else (k0, v0) :: store rest k v

/-- Map operation `Load`. -/
def load : List (String × Nat) → String → Option Nat
  | [], _ => none
  | (k0, v0) :: rest, k => if k0 = k then some v0 else load rest k

/-- Map operation `Delete`. -/
def deleteKey : List (String × Nat) → String → List (String × Nat)
  | [], _ => []
  | (k0, v0) :: rest, k =>
      if k0 = k then deleteKey rest k else (k0, v0) :: deleteKey rest k

/-- How many registry entries carry a given id. -/
def countKey (m : List (String × Nat)) (k : String) : Nat :=
  (m.filter (fun e => e.1 = k)).length

/-- A session created by a `subscribe`/`start` frame: the client-supplied id
and the handle of the `context.WithCancel` cancel function made for it. -/
structure Session where
  id : String
  handle : Nat
  deriving DecidableEq, Repr

/-- An outbound data frame (`GraphQLWSMessage` with the data/next type),
tagged with the originating frame's id. -/
structure DataFrame where
  id : String
  payload : Result
  deriving DecidableEq, Repr

/-- Observable state of one websocket connection: the cancel-function
registry, every session created so far, the handles whose cancel function has
been invoked, and the outbound data frames written. -/
structure ConnState where
  registry : List (String × Nat)
  created : List Session
  invoked : List Nat
  frames : List DataFrame
  deriving DecidableEq, Repr

/-- The connection state right after the upgrade. -/
def initialConn : ConnState :=
  { registry := [], created := [], invoked := [], frames := [] }

/-- A session is live while its cancel function has not been invoked. -/
def liveSessions (st : ConnState) (id : String) : List Session :=
  st.created.filter (fun s => s.id = id && !st.invoked.contains s.handle)

/-- The `subscribe`/`start` case of the frame dispatch: make a cancellable
context (fresh `handle`), `Store` it under the frame's id, then either range
over `DoAsync`'s channel writing one data frame per result (subscription
branch), or write `Do`'s single result and call `cancel()` — with no
`Delete` — in the query/mutation branch.  `doResult` is the result `Do`
returns and `subResults` the results received from `DoAsync`'s channel. -/
def handleStartFrame (st : ConnState) (id : String) (handle : Nat)
    (query : List Char) (doResult : Result) (subResults : List Result) :
    ConnState :=
  let st1 : ConnState :=
    { st with registry := store st.registry id handle,
              created := st.created ++ [⟨id, handle⟩] }
  if usesDoAsync query then
    { st1 with frames := st1.frames ++ subResults.map (fun r => ⟨id, r⟩) }
  else
    { st1 with frames := st1.frames ++ [⟨id, doResult⟩],
               invoked := st1.invoked ++ [handle] }

/-- The `stop` case of the frame dispatch: if the id is registered, `Delete`
it and invoke its cancel function; otherwise do nothing. -/
def handleStopFrame (st : ConnState) (id : String) : ConnState :=
  match load st.registry id with
  | some handle =>
      { st with registry := deleteKey st.registry id,
                invoked := st.invoked ++ [handle] }
  | none => st

/-- Closure `terminateConnection`: stop the ticker, close the socket, then `Range`
over `subscriptionCancellers`, `Delete`-ing every entry and invoking its
cancel function. -/
def terminateConnection (st : ConnState) : ConnState :=
  { st with registry := [],
            invoked := st.invoked ++ st.registry.map (fun e => e.2) }

end Handler

/-! Concrete instances used to evaluate the model on closed inputs. -/

namespace GraphQL

/-- A successful execution result, standing for `Execute(params)`. -/
def rOk : Result := { data := some "ok" }

/-- A document holding exactly one query operation. -/
def docQuery : Document := ⟨[.operationDefinition "query"]⟩

/-- A document holding exactly one subscription operation. -/
def docSubscription : Document := ⟨[.operationDefinition "subscription"]⟩

/-- A document whose first top-level definition is a fragment definition,
followed by a query operation. -/
def docFragmentFirst : Document :=
  ⟨[.fragmentDefinition, .operationDefinition "query"]⟩

/-- Collaborators for a request on which every stage succeeds: no extension
hook returns errors, parsing yields `d`, validation passes. -/
def benignCollab (d : Document) : Collab where
  initErrs := []
  parseStartErrs := []
  parseFinish := fun _ => []
  parse := .ok d
  validationStartErrs := []
  validate := fun _ => ⟨true, []⟩
  validationFinish := fun _ => []
  executeResult := rOk
  executeSubscriptionChan := ⟨[rOk], true⟩

/-- A benign single-query request. -/
def collabC1 : Collab := benignCollab docQuery

/-- A benign single-subscription request. -/
def collabC2 : Collab := benignCollab docSubscription

/-- A request whose parse-start extension hooks return an error. -/
def collabC3 : Collab :=
  { benignCollab docQuery with parseStartErrs := [⟨"parse-start hook error"⟩] }

/-- A request whose text fails to parse while the parse finish hooks also
report an error. -/
def collabC7 : Collab :=
  { benignCollab docQuery with
      parse := .error [⟨"syntax error"⟩],
      parseFinish := fun _ => [⟨"parse hook error"⟩] }

/-- A request that parses but fails validation while the validation finish
hooks also report an error. -/
def collabC7v : Collab :=
  { benignCollab docQuery with
      validate := fun _ => ⟨false, [⟨"rule violation"⟩]⟩,
      validationFinish := fun _ => [⟨"validation hook error"⟩] }

/-- A benign request whose document starts with a fragment definition. -/
def collabC10 : Collab := benignCollab docFragmentFirst

end GraphQL

namespace Handler

open GraphQL

/-- Query text consisting of just the subscription keyword. -/
def queryC4 : List Char := subscriptionKeyword

/-- Query text of a subscription operation preceded by a newline. -/
def queryC8 : List Char :=
  '\n' :: (subscriptionKeyword ++ [' ', '{', ' ', 'x', ' ', '}'])

/-- Query text of a subscription operation preceded by two spaces. -/
def querySpaces : List Char :=
  ' ' :: ' ' :: (subscriptionKeyword ++ [' ', '{', ' ', 'x', ' ', '}'])

/-- Query text of an anonymous (shorthand) query operation. -/
def queryC9 : List Char := ['{', ' ', 'x', ' ', '}']

/-- Connection state after two `start` frames registered sessions `0` and `1`
under the same id `"1"` with a subscription query. -/
def stC4 : ConnState :=
  handleStartFrame (handleStartFrame initialConn "1" 0 queryC4 rOk [rOk])
    "1" 1 queryC4 rOk [rOk]

/-- Connection state with one registered session before a duplicate register. -/
def stC4pre : ConnState :=
  { registry := [("1", 0)], created := [⟨"1", 0⟩], invoked := [], frames := [] }

/-- Connection state with two registered sessions, used at teardown. -/
def stC5 : ConnState :=
  { registry := [("a", 5), ("b", 6)], created := [⟨"a", 5⟩, ⟨"b", 6⟩],
    invoked := [], frames := [] }

/-- Connection state after one `start` frame carrying a query operation. -/
def stC9 : ConnState := handleStartFrame initialConn "7" 3 queryC9 rOk []

end Handler

/-! Shared lemmas about the embedded operations. -/

namespace GraphQL

/-- When every extension hook stays silent, parsing succeeds and validation
passes, `do` reaches the strategy dispatch, with both finish functions having
been invoked exactly once. -/
theorem do_success_eq (c : Collab) (d : Document)
    (h1 : c.initErrs = []) (h2 : c.parseStartErrs = [])
    (hp : c.parse = Except.ok d) (h3 : c.parseFinish false = [])
    (h4 : c.validationStartErrs = []) (h5 : (c.validate d).isValid = true)
    (h6 : c.validationFinish (c.validate d).errors = []) (skip : Bool) :
    do_ c skip = ⟨dispatch c skip d, 1, 1⟩ := by
  simp [do_, h1, h2, hp, h3, h4, h5, h6]

/-- Every channel `do(p, true)` can return is a `singleEventChannel`: one
value is sent on it and it is never closed. -/
theorem do_skip_channel_shape (c : Collab) :
    ((do_ c true).outcome.channel.map fun ch => ch.sent.length) = some 1 ∧
    ((do_ c true).outcome.channel.map ChannelSpec.closed) = some false := by
  unfold do_ dispatch
  dsimp only
  repeat' split
  all_goals first
    | exact ⟨rfl, rfl⟩
    | simp_all

end GraphQL

namespace Handler

open GraphQL

/-- Looking up a key right after storing it yields the stored value. -/
theorem load_store (m : List (String × Nat)) (k : String) (v : Nat) :
    load (store m k v) k = some v := by
  induction m with
  | nil => simp [store, load]
  | cons e rest ih =>
      obtain ⟨k0, v0⟩ := e
      by_cases h : k0 = k
      · simp [store, load, h]
      · simp [store, load, h, ih]

/-- Unfolding of `countKey` over a cons cell. -/
theorem countKey_cons (k0 : String) (v0 : Nat) (rest : List (String × Nat))
    (k : String) :
    countKey ((k0, v0) :: rest) k =
      countKey rest k + (if k0 = k then 1 else 0) := by
  by_cases h : k0 = k <;> simp [countKey, List.filter_cons, h]

/-- A key outside a registry has no entries. -/
theorem countKey_eq_zero (m : List (String × Nat)) (k : String)
    (h : k ∉ m.map Prod.fst) : countKey m k = 0 := by
  induction m with
  | nil => rfl
  | cons e rest ih =>
      obtain ⟨k0, v0⟩ := e
      simp only [List.map_cons, List.mem_cons] at h
      push_neg at h
      have hne : ¬ k0 = k := fun hk => h.1 hk.symm
      simp [countKey_cons, ih h.2, hne]

/-- Storing into a duplicate-free registry leaves exactly one entry for the
stored key. -/
theorem countKey_store (m : List (String × Nat)) (k : String) (v : Nat)
    (hnd : (m.map Prod.fst).Nodup) : countKey (store m k v) k = 1 := by
  induction m with
  | nil => simp [store, countKey]
  | cons e rest ih =>
      obtain ⟨k0, v0⟩ := e
      simp only [List.map_cons, List.nodup_cons] at hnd
      by_cases h : k0 = k
      · subst h
        simp [store, countKey_cons, countKey_eq_zero rest k0 hnd.1]
      · simp [store, h, countKey_cons, ih hnd.2]

/-- Both branches of a `subscribe`/`start` frame store the fresh cancel
function under the frame's id. -/
theorem handleStartFrame_registry (st : ConnState) (id : String) (handle : Nat)
    (query : List Char) (doResult : Result) (subResults : List Result) :
    (handleStartFrame st id handle query doResult subResults).registry =
      store st.registry id handle := by
  unfold handleStartFrame
  split <;> rfl

/-- When the leading ignored characters of a query text are all plain spaces,
trimming spaces agrees with dropping every leading ignored character. -/
theorem trimLeftSpaces_eq_dropWhile (q : List Char)
    (h : ∀ ch ∈ q.takeWhile ignoredChar, ch = ' ') :
    trimLeftSpaces q = q.dropWhile ignoredChar := by
  induction q with
  | nil => simp [trimLeftSpaces]
  | cons ch rest ih =>
      by_cases hc : ch = ' '
      · subst hc
        have hi : ignoredChar ' ' = true := by decide
        simp only [List.takeWhile_cons, hi, if_pos] at h
        simp only [trimLeftSpaces, if_pos rfl, List.dropWhile_cons, hi, if_pos]
        exact ih fun x hx => h x (List.mem_cons_of_mem _ hx)
      · have hi : ignoredChar ch = false := by
          cases hig : ignoredChar ch
          · rfl
          · exact absurd (h ch (by simp [List.takeWhile_cons, hig])) hc
        simp [trimLeftSpaces, hc, List.dropWhile_cons, hi]

end Handler

/-! Claim theorems. -/

open GraphQL Handler

/-- C1 — counterexample: on a benign single-query request, `do(p, true)`
returns a channel carrying exactly one `Result`, but the channel is left
open (`closed = false`), refuting the claim's "the stream then closes
(the channel is closed)". -/
theorem c1_counterexample :
    ((do_ collabC1 true).outcome.channel.map fun ch => ch.sent.length) = some 1 ∧
    ¬ (((do_ collabC1 true).outcome.channel.map ChannelSpec.closed) = some true) := by
  decide

/-- C1 (amended): for every request whose query text parses and validates as
a single-operation query or mutation document, the pipeline run with
`skipSubscriptions = true` delivers exactly one `Result` on its channel and
never sends another, but the channel is never closed, so ranging over it
does not terminate. -/
theorem c1_single_result_channel_never_closed (c : Collab) (d : Document)
    (k : String) (hparse : c.parse = Except.ok d)
    (hvalid : (c.validate d).isValid = true)
    (hsingle : d.definitions = [Definition.operationDefinition k])
    (hkind : k = "query" ∨ k = "mutation") :
    ((do_ c true).outcome.channel.map fun ch => ch.sent.length) = some 1 ∧
    ((do_ c true).outcome.channel.map ChannelSpec.closed) = some false :=
  do_skip_channel_shape c

/-- C1 — witness of the amended claim at a concrete benign query request. -/
theorem c1_witness :
    ((do_ collabC1 true).outcome.channel.map fun ch => ch.sent.length) = some 1 ∧
    ((do_ collabC1 true).outcome.channel.map ChannelSpec.closed) = some false :=
  c1_single_result_channel_never_closed collabC1 docQuery "query" rfl rfl rfl
    (Or.inl rfl)

/-- C2: on a request that passes hooks, parsing and validation,
`ExecuteSubscription` runs if and only if `skipSubscriptions` is false, the
document has at least one definition and its first definition is an operation
of kind `subscription`; and whenever the first definition is a query or
mutation operation, the document is empty, or `skipSubscriptions` is true,
the single-result strategy runs, sending the one `Execute` result. -/
theorem c2_dispatch_iff_subscription (c : Collab) (d : Document) (skip : Bool)
    (h1 : c.initErrs = []) (h2 : c.parseStartErrs = [])
    (hp : c.parse = Except.ok d) (h3 : c.parseFinish false = [])
    (h4 : c.validationStartErrs = []) (h5 : (c.validate d).isValid = true)
    (h6 : c.validationFinish (c.validate d).errors = []) :
    ((do_ c skip).outcome.isStreaming = true ↔
        (skip = false ∧
          ∃ rest, d.definitions =
            Definition.operationDefinition "subscription" :: rest)) ∧
    ((skip = true ∨ d.definitions = [] ∨
        ∃ k rest, d.definitions = Definition.operationDefinition k :: rest ∧
          k ≠ "subscription") →
      (do_ c skip).outcome = DoOutcome.single (singleEventChannel c.executeResult)) := by
  rw [do_success_eq c d h1 h2 hp h3 h4 h5 h6 skip]
  cases skip with
  | true =>
      refine ⟨⟨fun hs => ?_, fun hrhs => ?_⟩, fun _ => ?_⟩
      · simp [dispatch, DoOutcome.isStreaming] at hs
      · exact absurd hrhs.1 (by simp)
      · simp [dispatch]
  | false =>
      cases hd : d.definitions with
      | nil =>
          refine ⟨⟨fun hs => ?_, fun hrhs => ?_⟩, fun _ => ?_⟩
          · simp [dispatch, hd, DoOutcome.isStreaming] at hs
          · obtain ⟨-, rest, hrest⟩ := hrhs
            simp at hrest
          · simp [dispatch, hd]
      | cons hdDef tl =>
          cases hdDef with
          | operationDefinition op =>
              by_cases hop : op = "subscription"
              · subst hop
                refine ⟨⟨fun _ => ⟨rfl, tl, rfl⟩, fun _ => ?_⟩, fun hcase => ?_⟩
                · simp [dispatch, hd, DoOutcome.isStreaming]
                · exfalso
                  rcases hcase with hsk | hnil | ⟨k, rest, hk, hne⟩
                  · simp at hsk
                  · simp at hnil
                  · injection hk with hk1 hk2
                    injection hk1 with hkop
                    exact hne hkop.symm
              · refine ⟨⟨fun hs => ?_, fun hrhs => ?_⟩, fun _ => ?_⟩
                · simp [dispatch, hd, DoOutcome.isStreaming, hop] at hs
                · obtain ⟨-, rest, hrest⟩ := hrhs
                  injection hrest with hk1 hk2
                  injection hk1 with hkop
                  exact absurd hkop hop
                · simp [dispatch, hd, hop]
          | fragmentDefinition =>
              refine ⟨⟨fun hs => ?_, fun hrhs => ?_⟩, fun hcase => ?_⟩
              · simp [dispatch, hd, DoOutcome.isStreaming] at hs
              · obtain ⟨-, rest, hrest⟩ := hrhs
                simp at hrest
              · exfalso
                rcases hcase with hsk | hnil | ⟨k, rest, hk, -⟩
                · simp at hsk
                · simp at hnil
                · simp at hk

/-- C2 — witness: a benign subscription request streams under
`skipSubscriptions = false` and takes the single-result path under
`skipSubscriptions = true`. -/
theorem c2_witness :
    (do_ collabC2 false).outcome.isStreaming = true ∧
    (do_ collabC2 true).outcome =
      DoOutcome.single (singleEventChannel collabC2.executeResult) :=
  ⟨(c2_dispatch_iff_subscription collabC2 docSubscription false rfl rfl rfl rfl
      rfl rfl rfl).1.mpr ⟨rfl, [], rfl⟩,
   (c2_dispatch_iff_subscription collabC2 docSubscription true rfl rfl rfl rfl
      rfl rfl rfl).2 (Or.inl rfl)⟩

/-- C3 — counterexample: when the parse-start hooks themselves return errors,
`do` returns the failed result without ever invoking the parse finish
function, refuting "invoked exactly once ... in particular ... when hooks at
that stage themselves produce errors". -/
theorem c3_counterexample :
    (do_ collabC3 true).parseFinishCalls = 0 ∧
    (do_ collabC3 true).outcome =
      DoOutcome.failed (wrapErr [⟨"parse-start hook error"⟩]) := by
  decide

/-- C3 (amended): a stage's finish function is invoked exactly once whenever
that stage's start hooks return no errors — including when the stage itself
fails — but when the start hooks return errors the pipeline returns without
invoking that stage's finish function at all. -/
theorem c3_finish_hooks_follow_start_success (c : Collab) (skip : Bool)
    (h1 : c.initErrs = []) :
    (c.parseStartErrs ≠ [] → (do_ c skip).parseFinishCalls = 0) ∧
    (c.parseStartErrs = [] → (do_ c skip).parseFinishCalls = 1) ∧
    (∀ d, c.parseStartErrs = [] → c.parse = Except.ok d →
      c.parseFinish false = [] →
      ((c.validationStartErrs ≠ [] → (do_ c skip).validationFinishCalls = 0) ∧
       (c.validationStartErrs = [] → (do_ c skip).validationFinishCalls = 1))) := by
  refine ⟨fun h2 => ?_, fun h2 => ?_, fun d h2 hp h3 => ⟨fun h4 => ?_, fun h4 => ?_⟩⟩
  · simp [do_, h1, h2]
  · cases hp : c.parse with
    | error es => simp [do_, h1, h2, hp]
    | ok d =>
        by_cases h3 : c.parseFinish false = []
        · by_cases h4 : c.validationStartErrs = []
          · by_cases h5 : (c.validate d).isValid = false
            · simp [do_, h1, h2, hp, h3, h4, h5]
            · by_cases h6 : c.validationFinish (c.validate d).errors = []
              · simp [do_, h1, h2, hp, h3, h4, h5, h6]
              · simp [do_, h1, h2, hp, h3, h4, h5, h6]
          · simp [do_, h1, h2, hp, h3, h4]
        · simp [do_, h1, h2, hp, h3]
  · simp [do_, h1, h2, hp, h3, h4]
  · by_cases h5 : (c.validate d).isValid = false
    · simp [do_, h1, h2, hp, h3, h4, h5]
    · by_cases h6 : c.validationFinish (c.validate d).errors = []
      · simp [do_, h1, h2, hp, h3, h4, h5, h6]
      · simp [do_, h1, h2, hp, h3, h4, h5, h6]

/-- C3 — witness of the amended claim: on a benign request both finish
functions run exactly once. -/
theorem c3_witness :
    (do_ (benignCollab docQuery) true).parseFinishCalls = 1 ∧
    (do_ (benignCollab docQuery) true).validationFinishCalls = 1 :=
  ⟨(c3_finish_hooks_follow_start_success (benignCollab docQuery) true rfl).2.1 rfl,
   ((c3_finish_hooks_follow_start_success (benignCollab docQuery) true rfl).2.2
      docQuery rfl rfl rfl).2 rfl⟩

/-- C4 — counterexample: registering a second session under an id that
already has a live session is neither rejected nor cancels the prior handle:
after two `start` frames for id `"1"`, two sessions are live, no cancel
function was invoked, and the registry points at the newer handle. -/
theorem c4_counterexample :
    (liveSessions stC4 "1").length = 2 ∧
    load stC4.registry "1" = some 1 ∧
    stC4.invoked = [] := by
  decide

/-- C4 (amended): a `subscribe`/`start` frame stores its cancel function over
any existing entry, so a duplicate-free registry keeps exactly one entry per
id pointing at the newest handle — but no cancel function other than (in the
single-result branch) the newly created one is ever invoked, so the prior
session stays live. -/
theorem c4_register_overwrites_without_cancel (st : ConnState) (id : String)
    (handle : Nat) (query : List Char) (doResult : Result)
    (subResults : List Result)
    (hnd : (st.registry.map Prod.fst).Nodup) :
    countKey (handleStartFrame st id handle query doResult subResults).registry id = 1 ∧
    load (handleStartFrame st id handle query doResult subResults).registry id =
      some handle ∧
    ∀ h0 ∈ (handleStartFrame st id handle query doResult subResults).invoked,
      h0 ∈ st.invoked ∨ h0 = handle := by
  refine ⟨?_, ?_, ?_⟩
  · rw [handleStartFrame_registry]
    exact countKey_store st.registry id handle hnd
  · rw [handleStartFrame_registry]
    exact load_store st.registry id handle
  · intro h0 hh0
    unfold handleStartFrame at hh0
    dsimp only at hh0
    split at hh0 <;> simp_all

/-- C4 — witness of the amended claim at a concrete duplicate registration. -/
theorem c4_witness :
    countKey (handleStartFrame stC4pre "1" 1 queryC4 rOk []).registry "1" = 1 ∧
    load (handleStartFrame stC4pre "1" 1 queryC4 rOk []).registry "1" = some 1 :=
  ⟨(c4_register_overwrites_without_cancel stC4pre "1" 1 queryC4 rOk []
      (by decide)).1,
   (c4_register_overwrites_without_cancel stC4pre "1" 1 queryC4 rOk []
      (by decide)).2.1⟩

/-- C5: `terminateConnection` invokes the cancel function of every session
registered at teardown time, and afterwards the session registry is empty. -/
theorem c5_terminate_cancels_all_and_empties (st : ConnState) :
    (terminateConnection st).registry = [] ∧
    ∀ e ∈ st.registry, e.2 ∈ (terminateConnection st).invoked := by
  refine ⟨rfl, fun e he => ?_⟩
  have hm : e.2 ∈ st.registry.map fun p => p.2 := List.mem_map_of_mem _ he
  exact List.mem_append_right _ hm

/-- C5 — witness at a connection with two registered sessions. -/
theorem c5_witness :
    (terminateConnection stC5).registry = [] ∧
    ("a", 5).2 ∈ (terminateConnection stC5).invoked ∧
    ("b", 6).2 ∈ (terminateConnection stC5).invoked :=
  ⟨(c5_terminate_cancels_all_and_empties stC5).1,
   (c5_terminate_cancels_all_and_empties stC5).2 ("a", 5) (by decide),
   (c5_terminate_cancels_all_and_empties stC5).2 ("b", 6) (by decide)⟩

/-- C6 — counterexample: the probe interval is exactly half the read timeout
(30s versus 60s), so the claimed strict inequality
`pingPeriod < pongWait / 2` is false. -/
theorem c6_counterexample : ¬ (pingPeriod < pongWait / 2) := by
  decide

/-- C6 (amended): the keepalive constants satisfy `pingPeriod = pongWait / 2`
— equal to, not strictly less than, half the read timeout — which meets the
code's own stated requirement `pingPeriod < pongWait`; with the default
60-second read timeout the probe interval is exactly 30 seconds. -/
theorem c6_ping_period_half_pong_wait :
    pingPeriod * 2 = pongWait ∧ pingPeriod < pongWait ∧
    pingPeriod = 30 * timeSecond := by
  decide

/-- C7: when a stage fails with hook errors and stage errors both present,
the failed `Result` carries all hook errors before all stage errors — the
parse finish errors precede the parser error, and the validation finish
errors precede the validation errors, each sub-list in its own order. -/
theorem c7_hook_errors_precede_stage_errors (c : Collab) (skip : Bool)
    (h1 : c.initErrs = []) (h2 : c.parseStartErrs = []) :
    (∀ parseErrs, c.parse = Except.error parseErrs →
        (do_ c skip).outcome =
          DoOutcome.failed (wrapErr (c.parseFinish true ++ parseErrs))) ∧
    (∀ d, c.parse = Except.ok d → c.parseFinish false = [] →
        c.validationStartErrs = [] → (c.validate d).isValid = false →
        (do_ c skip).outcome =
          DoOutcome.failed (wrapErr (c.validationFinish (c.validate d).errors ++
            (c.validate d).errors))) := by
  constructor
  · intro parseErrs hp
    simp [do_, h1, h2, hp]
  · intro d hp h3 h4 h5
    simp [do_, h1, h2, hp, h3, h4, h5]

/-- C7 — witness: concrete parse-failure and validation-failure requests
whose failed results list the hook error first and the stage error second. -/
theorem c7_witness :
    (do_ collabC7 true).outcome =
      DoOutcome.failed (wrapErr [⟨"parse hook error"⟩, ⟨"syntax error"⟩]) ∧
    (do_ collabC7v true).outcome =
      DoOutcome.failed (wrapErr [⟨"validation hook error"⟩, ⟨"rule violation"⟩]) :=
  ⟨(c7_hook_errors_precede_stage_errors collabC7 true rfl rfl).1
      [⟨"syntax error"⟩] rfl,
   (c7_hook_errors_precede_stage_errors collabC7v true rfl rfl).2
      docQuery rfl rfl rfl rfl⟩

/-- C8 — counterexample: a subscription document preceded by a newline is a
subscription per the parser's notion of first operation, yet the handler's
space-only trim misses it and routes it through `graphql.Do`. -/
theorem c8_counterexample :
    firstOperationIsSubscription queryC8 = true ∧ usesDoAsync queryC8 = false := by
  decide

/-- C8 (amended): the handler runs `graphql.DoAsync` iff the query text with
leading U+0020 spaces removed starts with the literal `subscription`; this
coincides with the first operation being a subscription exactly for query
texts whose leading ignored characters are all plain spaces, while other
leading whitespace (tab, newline, carriage return) or commas route a
subscription document through `graphql.Do`. -/
theorem c8_dispatch_trims_only_spaces (q : List Char)
    (h : ∀ ch ∈ q.takeWhile ignoredChar, ch = ' ') :
    usesDoAsync q = firstOperationIsSubscription q := by
  unfold usesDoAsync firstOperationIsSubscription
  rw [trimLeftSpaces_eq_dropWhile q h]

/-- C8 — witness of the amended claim on a space-prefixed subscription. -/
theorem c8_witness :
    usesDoAsync querySpaces = firstOperationIsSubscription querySpaces :=
  c8_dispatch_trims_only_spaces querySpaces (by decide)

/-- C9 — counterexample: after a `start` frame carrying a query operation,
exactly one data frame tagged with the frame's id was written and the
session's cancel function was invoked, but the registry entry for that id is
still present — it was never removed, refuting "removes the session's
entry". -/
theorem c9_counterexample :
    stC9.frames = [⟨"7", rOk⟩] ∧ stC9.invoked = [3] ∧
    load stC9.registry "7" = some 3 ∧ stC9.registry ≠ [] := by
  decide

/-- C9 (amended): on a `subscribe`/`start` frame carrying a non-subscription
operation the handler writes exactly one data frame tagged with the frame's
id and then invokes the session's cancel function, but the session's registry
entry is not removed: it remains, holding the invoked handle, until a `stop`
frame or connection teardown. -/
theorem c9_single_result_cancels_but_keeps_entry (st : ConnState) (id : String)
    (handle : Nat) (query : List Char) (doResult : Result)
    (subResults : List Result) (h : usesDoAsync query = false) :
    (handleStartFrame st id handle query doResult subResults).frames =
      st.frames ++ [⟨id, doResult⟩] ∧
    (handleStartFrame st id handle query doResult subResults).invoked =
      st.invoked ++ [handle] ∧
    load (handleStartFrame st id handle query doResult subResults).registry id =
      some handle := by
  refine ⟨?_, ?_, ?_⟩
  · simp [handleStartFrame, h]
  · simp [handleStartFrame, h]
  · rw [handleStartFrame_registry]
    exact load_store st.registry id handle

/-- C9 — witness of the amended claim at a concrete query-operation frame. -/
theorem c9_witness :
    (handleStartFrame initialConn "7" 3 queryC9 rOk []).frames =
      initialConn.frames ++ [⟨"7", rOk⟩] ∧
    (handleStartFrame initialConn "7" 3 queryC9 rOk []).invoked =
      initialConn.invoked ++ [3] ∧
    load (handleStartFrame initialConn "7" 3 queryC9 rOk []).registry "7" =
      some 3 :=
  c9_single_result_cancels_but_keeps_entry initialConn "7" 3 queryC9 rOk []
    (by decide)

/-- C10: on a benign request whose document's first top-level definition is
not an operation definition, running with `skipSubscriptions = false`
(`DoAsync`) hits the unchecked type assertion and panics, while
`skipSubscriptions = true` (`Do`) never reaches the assertion and returns the
single-result channel normally. -/
theorem c10_streaming_dispatch_panics_on_non_operation (c : Collab)
    (d : Document) (rest : List Definition)
    (h1 : c.initErrs = []) (h2 : c.parseStartErrs = [])
    (hp : c.parse = Except.ok d) (h3 : c.parseFinish false = [])
    (h4 : c.validationStartErrs = []) (h5 : (c.validate d).isValid = true)
    (h6 : c.validationFinish (c.validate d).errors = [])
    (hd : d.definitions = Definition.fragmentDefinition :: rest) :
    (do_ c false).outcome = DoOutcome.panicked ∧
    (do_ c true).outcome = DoOutcome.single (singleEventChannel c.executeResult) := by
  rw [do_success_eq c d h1 h2 hp h3 h4 h5 h6 false,
      do_success_eq c d h1 h2 hp h3 h4 h5 h6 true]
  constructor
  · simp [dispatch, hd]
  · simp [dispatch]

/-- C10 — witness: a fragment definition followed by a query operation
panics under `DoAsync` and returns normally under `Do`. -/
theorem c10_witness :
    (do_ collabC10 false).outcome = DoOutcome.panicked ∧
    (do_ collabC10 true).outcome =
      DoOutcome.single (singleEventChannel collabC10.executeResult) :=
  c10_streaming_dispatch_panics_on_non_operation collabC10 docFragmentFirst
    [.operationDefinition "query"] rfl rfl rfl rfl rfl rfl rfl rfl
